import Mathlib

/-!
Shallow embedding of the RoboComp synchronization buffers
(src/classes/doublebuffer_sync/doublebuffer_sync.h and
src/classes/new_doublebuffer/doublebuffer.h) together with proofs that
check the natural-language specification of the repository against this
code.

Channels are modelled over a single value type `α` (the C++ class is a
variadic template; every property under scrutiny is uniform in the
per-channel value types, so one type parameter suffices).  `size_t` values
are modelled as natural numbers, reduced modulo `2 ^ 64` exactly where the
C++ unsigned arithmetic can wrap.
-/

namespace RoboComp

variable {α β γ δ : Type}

/-- Modulus of `size_t` on the 64-bit targets RoboComp builds for. -/
def U64 : Nat := 2 ^ 64

/-- Unsigned 64-bit subtraction: the C++ expression `a - b` on `size_t`
operands, for representatives `a b < U64`. -/
def usub (a b : Nat) : Nat := (U64 + a - b) % U64

/-- Value of `std::abs(static_cast<ssize_t>(a) - static_cast<ssize_t>(b))`:
for timestamps below `2 ^ 63` (the only meaningful range) this is the plain
absolute difference of the two naturals, which is how it is modelled. -/
def sabsdiff (a b : Nat) : Nat := ((a : Int) - (b : Int)).natAbs

/-- Plain absolute difference on naturals, used to state the nearest-sample rule of the spec. -/
def absDiff (a b : Nat) : Nat := max a b - min a b

/-- One stored element of a channel deque: `std::pair<O, size_t>`
(`pair_t_time` in doublebuffer_sync.h): the converted value together with
the logical timestamp given by the caller. -/
structure Entry (α : Type) where
  val : α
  ts : Nat
deriving DecidableEq

/-- State of a `BufferSync` whose channels store values of type `α`:
`_out` (one deque per channel, list head = deque front = oldest entry), the
`last_write` array, the `empty` atomic flag, and `queue_size`. -/
structure Buffer (α : Type) where
  out : List (List (Entry α))
  last_write : List Nat
  empty : Bool
  queue_size : Nat
deriving DecidableEq

/-- Value of `*std::max_element(last_write.begin(), last_write.end())` for a
non-empty array (doublebuffer_sync.h:274); on naturals `foldl max 0` agrees
with the maximum of any non-empty list. -/
def maxElement (l : List Nat) : Nat := l.foldl max 0

/-- Embedding of `read_first` (doublebuffer_sync.h:212-235): fast path on
the `empty` flag; otherwise each slot receives `q.front().first` when the
channel is non-empty, and the `empty` flag is recomputed from the channels.
Returns the snapshot together with the post-state. -/
def read_first (b : Buffer α) : List (Option α) × Buffer α :=
  if b.empty then (List.replicate b.out.length none, b)
  else
    (b.out.map fun q => q.head?.map Entry.val,
     if b.out.all List.isEmpty then { b with empty := true } else b)

/-- Per-channel body of `read_last` (doublebuffer_sync.h:277-281):
`if (!q.empty() && (max - q.back().second < max_diff)) r = q.back().first;`.
Note that the code compares `max` (the maximum of the `last_write` array)
against the logical timestamp `q.back().second` of the newest sample, with
unsigned subtraction, and not against `last_write[idx]`. -/
def read_last_slot (M md : Nat) (q : List (Entry α)) : Option α :=
  match q.getLast? with
  | some e => if usub M e.ts < md then some e.val else none
  | none => none

/-- Embedding of `read_last` (doublebuffer_sync.h:265-288).  The default
`max_diff` at the call sites is `std::numeric_limits<size_t>::max()`,
i.e. `U64 - 1`. -/
def read_last (b : Buffer α) (md : Nat) : List (Option α) × Buffer α :=
  if b.empty then (List.replicate b.out.length none, b)
  else
    (b.out.map (read_last_slot (maxElement b.last_write) md),
     if b.out.all List.isEmpty then { b with empty := true } else b)

/-- Per-channel body of `read` (doublebuffer_sync.h:330-341).  The code
fills `diffs` with the absolute timestamp differences, but then computes
`it_idx` as `std::min(diffs.begin(), diffs.end()) - diffs.begin()`:
`std::min` applied to the two iterators compares the iterators themselves
(positions, with `begin <= end`), so it returns `diffs.begin()` and
`it_idx` is always `0`; `it` is always `q.begin()` and the `diffs` vector is
dead.  The guard is `it != q.end() && timestamp - it->second <= max_diff`
with unsigned subtraction. -/
def read_slot (timestamp md : Nat) (q : List (Entry α)) : Option α :=
  let _diffs := q.map fun e => sabsdiff e.ts timestamp
  let it_idx : Nat := 0
  match q.get? it_idx with
  | some e => if usub timestamp e.ts ≤ md then some e.val else none
  | none => none

/-- Embedding of `read` (doublebuffer_sync.h:318-348). -/
def read (b : Buffer α) (timestamp md : Nat) : List (Option α) × Buffer α :=
  if b.empty then (List.replicate b.out.length none, b)
  else
    (b.out.map (read_slot timestamp md),
     if b.out.all List.isEmpty then { b with empty := true } else b)

/-- Eviction-and-append step of the `put` task (doublebuffer_sync.h:380-382):
`if (size() + 1 > queue_size) pop_front(); emplace_back(value, timestamp);`. -/
def pushCh (K : Nat) (q : List (Entry α)) (e : Entry α) : List (Entry α) :=
  (if q.length + 1 > K then q.drop 1 else q) ++ [e]

/-- Body of the task enqueued by `put<idx>` (doublebuffer_sync.h:374-384),
after conversion of the input value: set `last_write[idx]` to the current
wall-clock reading (passed here as the explicit parameter `now`),
evict-if-full, append `(v, timestamp)`, and clear the `empty` flag. -/
def putTask (b : Buffer α) (idx : Nat) (v : α) (timestamp now : Nat) : Buffer α :=
  { b with
    last_write := b.last_write.set idx now
    out := b.out.set idx (pushCh b.queue_size (b.out.getD idx []) { val := v, ts := timestamp })
    empty := false }

/-- Constructor `BufferSync(size_t size) : worker(1), queue_size(size)`
(doublebuffer_sync.h:178): every channel deque starts empty; the
`std::atomic_bool empty` member carries no initial value in the code and C++20 value-initialisation
of `std::atomic` makes it `false`; the `std::array<size_t, N> last_write`
member is default-initialised (indeterminate values), modelled
by the arbitrary parameter `lw`, whose length is the number of channels. -/
def init (lw : List Nat) (size : Nat) : Buffer α :=
  { out := List.replicate lw.length []
    last_write := lw
    empty := false
    queue_size := size }

/-- Construction of a `BufferSync` viewed as a fallible operation
(doublebuffer_sync.h:177-179): the constructors contain no capacity check
of any kind, so construction never fails, for any requested size. -/
def constructSync (lw : List Nat) (size : Nat) : Except String (Buffer α) :=
  .ok (init lw size)

/-- Scalar state held by the second `DoubleBuffer` variant
(doublebuffer.h:141-273): ring of `bufferSize` default-constructed slots
with `head` and `count` cursors (slot contents are irrelevant to the claims
settled here). -/
structure DBState where
  bufferSize : Nat
  head : Nat
  count : Nat
deriving DecidableEq

/-- Constructor `DoubleBuffer(size_t size, size_t threadPoolSize)`
(doublebuffer.h:151-158): throws `std::invalid_argument` when `size == 0`
or `threadPoolSize == 0`, otherwise yields an empty ring buffer. -/
def constructDouble (size threadPoolSize : Nat) : Except String DBState :=
  if size = 0 then .error "Buffer size must be greater than zero"
  else if threadPoolSize = 0 then .error "Thread pool size must be greater than zero"
  else .ok { bufferSize := size, head := 0, count := 0 }

/-- Error the spec prescribes when no conversion path applies and no
transform was supplied. -/
inductive ConfigurationError
  | mk
deriving DecidableEq

/-- Compile-time facts that `ItoO` (doublebuffer_sync.h:469-491) branches
on, for a given input type `I` and output type `O`:
`std::is_same<I,O> || std::is_convertible<I,O>`, `is_iterable<I>`,
`is_iterable<O>`, and convertibility of the element types. -/
structure ConvSig where
  same_or_convertible : Bool
  iterable_I : Bool
  iterable_O : Bool
  elem_convertible : Bool
deriving DecidableEq

/-- Condition tested by the `static_assert` guards inside `ItoO`:
`std::is_same<decltype(t), decltype(empty_fn)>::value`.  `decltype(t)` is
`const std::function<void(I&&, O&)>&` while `decltype(empty_fn)` is the
closure type of the lambda at doublebuffer_sync.h:120; these types are never
the same, so the guard `static_assert(!is_same<...>)` can never fire — not
even when the caller supplied no transform and `t` holds `empty_fn`. -/
def t_has_empty_fn_type : Bool := false

/-- Default transform `empty_fn = [](auto &&I, auto &T) {}`
(doublebuffer_sync.h:120): performs no operation, leaving the
default-constructed output unchanged. -/
def empty_fn : α → β → β := fun _ o => o

/-- Embedding of `BufferSync::ItoO` (doublebuffer_sync.h:469-491).  `conv`
models the direct assignment of branch (1) (identity or implicit
conversion), `elemwise` models the element-by-element construction of
branch (2), `t` is the transform argument, mutating the default-constructed
output `dflt`, and a firing `static_assert` is modelled as
`ConfigurationError`. -/
def ItoO (sig : ConvSig) (conv elemwise : α → β) (t : α → β → β) (x : α) (dflt : β) :
    Except ConfigurationError β :=
  if sig.same_or_convertible then .ok (conv x)
  else if sig.iterable_I && sig.iterable_O then
    if sig.elem_convertible then .ok (elemwise x)
    else if t_has_empty_fn_type then .error .mk
    else .ok (t x dflt)
  else if t_has_empty_fn_type then .error .mk
  else .ok (t x dflt)

/-- Nearest rule written from the words of the SPEC (spec §4.1): scan all
retained entries and return the one minimizing the absolute timestamp
distance to `timestamp`, ties broken by the earliest position in the
sequence.  Declared for comparison against `read_slot`. -/
def specNearest (timestamp : Nat) (q : List (Entry α)) : Option (Entry α) :=
  q.foldl
    (fun acc e =>
      match acc with
      | none => some e
      | some c => if absDiff e.ts timestamp < absDiff c.ts timestamp then some e else some c)
    none

/-- One drained buffer operation, for stating state invariants over
operation sequences. -/
inductive Op (α : Type)
  | put (idx : Nat) (v : α) (timestamp now : Nat)
  | readFirst
  | readLast (md : Nat)
  | readAt (timestamp md : Nat)

/-- State transition of one drained operation. -/
def applyOp (b : Buffer α) : Op α → Buffer α
  | .put idx v timestamp now => putTask b idx v timestamp now
  | .readFirst => (read_first b).2
  | .readLast md => (read_last b md).2
  | .readAt timestamp md => (read b timestamp md).2

/-- State after a sequence of drained operations. -/
def run (b : Buffer α) (ops : List (Op α)) : Buffer α := ops.foldl applyOp b

/-- Modelled from the spec: the `ThreadPool` collaborator
(threadpool/threadpool.h) is not under src/.  Spec §5: "one background
worker thread per Buffer processes submitted write tasks strictly in
submission order (a single-slot executor)".  `drain` therefore executes the
enqueued tasks one after another, in submission (list) order. -/
def drain (tasks : List (Buffer α → Buffer α)) (b : Buffer α) : Buffer α :=
  tasks.foldl (fun s task => task s) b

/-- Arguments of one `put<idx>(v, timestamp)` call, with `now` the
wall-clock instant its task will observe. -/
structure PutReq (α : Type) where
  idx : Nat
  v : α
  timestamp : Nat
  now : Nat

/-- Write task that `put` enqueues for one request. -/
def putReqTask (r : PutReq α) : Buffer α → Buffer α :=
  fun b => putTask b r.idx r.v r.timestamp r.now

/-- One-channel state holding samples `(1, ts 10)` and `(2, ts 30)`. -/
def bC1 : Buffer Nat :=
  { out := [[{ val := 1, ts := 10 }, { val := 2, ts := 30 }]]
    last_write := [999], empty := false, queue_size := 10 }

/-- One-channel state: retained sample `(1, ts 100)`, `last_write = [10]`. -/
def bC2 : Buffer Nat :=
  { out := [[{ val := 1, ts := 100 }]], last_write := [10], empty := false, queue_size := 10 }

/-- One-channel state: retained sample `(1, ts 11)`, `last_write = [10]`. -/
def bC2b : Buffer Nat :=
  { out := [[{ val := 1, ts := 11 }]], last_write := [10], empty := false, queue_size := 10 }

/-- One-channel state: retained sample `(7, ts 10)`, `last_write = [10]`. -/
def bC2w : Buffer Nat :=
  { out := [[{ val := 7, ts := 10 }]], last_write := [10], empty := false, queue_size := 10 }

end RoboComp

namespace RoboComp

variable {α β γ δ : Type}

theorem usub_lt (a b : Nat) : usub a b < U64 := by
  unfold usub U64
  exact Nat.mod_lt _ (by norm_num)

theorem pushCh_eq_drop (K : Nat) (hK : 1 ≤ K) (q : List (Entry α)) (e : Entry α)
    (hq : q.length ≤ K) :
    pushCh K q e = (q ++ [e]).drop (q.length + 1 - K) := by
  unfold pushCh
  by_cases h : q.length + 1 > K
  · have h1 : q.length + 1 - K = 1 := by omega
    rw [if_pos h, h1]
    exact (List.drop_append_of_le_length (by omega : 1 ≤ q.length)).symm
  · have h0 : q.length + 1 - K = 0 := by omega
    rw [if_neg h, h0, List.drop_zero]

theorem pushCh_length_le (K : Nat) (hK : 1 ≤ K) (q : List (Entry α)) (e : Entry α)
    (hq : q.length ≤ K) : (pushCh K q e).length ≤ K := by
  unfold pushCh
  by_cases h : q.length + 1 > K
  · rw [if_pos h]; simp; omega
  · rw [if_neg h]; simp; omega

theorem foldl_pushCh (K : Nat) (hK : 1 ≤ K) (ps : List (Entry α)) :
    ∀ q : List (Entry α), q.length ≤ K →
      ps.foldl (pushCh K) q = (q ++ ps).drop (q.length + ps.length - K) := by
  induction ps with
  | nil =>
    intro q hq
    have h0 : q.length + ([] : List (Entry α)).length - K = 0 := by simp; omega
    simp only [List.foldl_nil, List.append_nil, h0, List.drop_zero]
  | cons e ps ih =>
    intro q hq
    have hm : q.length + 1 - K ≤ (q ++ [e]).length := by simp
    calc (e :: ps).foldl (pushCh K) q
        = ps.foldl (pushCh K) (pushCh K q e) := by rw [List.foldl_cons]
      _ = ((pushCh K q e) ++ ps).drop ((pushCh K q e).length + ps.length - K) :=
          ih (pushCh K q e) (pushCh_length_le K hK q e hq)
      _ = ((((q ++ [e]).drop (q.length + 1 - K))) ++ ps).drop
            ((((q ++ [e]).drop (q.length + 1 - K))).length + ps.length - K) := by
          rw [pushCh_eq_drop K hK q e hq]
      _ = (((q ++ [e]) ++ ps).drop (q.length + 1 - K)).drop
            ((((q ++ [e]).drop (q.length + 1 - K))).length + ps.length - K) := by
          rw [List.drop_append_of_le_length hm]
      _ = ((q ++ [e]) ++ ps).drop ((q.length + 1 - K) +
            ((((q ++ [e]).drop (q.length + 1 - K))).length + ps.length - K)) := by
          rw [List.drop_drop]
      _ = (q ++ e :: ps).drop (q.length + (e :: ps).length - K) := by
          have harith : (q.length + 1 - K) +
              (((q ++ [e]).drop (q.length + 1 - K)).length + ps.length - K) =
              q.length + (e :: ps).length - K := by
            simp only [List.length_drop, List.length_append, List.length_singleton,
              List.length_cons, List.length_nil]
            omega
          have hlists : (q ++ [e]) ++ ps = q ++ e :: ps := by simp
          rw [harith, hlists]

theorem getD_map_of_lt (f : γ → δ) (d : γ) (d' : δ) :
    ∀ (l : List γ) (j : Nat), j < l.length → (l.map f).getD j d' = f (l.getD j d) := by
  intro l
  induction l with
  | nil => intro j hj; simp at hj
  | cons x l ih =>
    intro j hj
    cases j with
    | zero => simp
    | succ j => simpa using ih j (by simpa using hj)

theorem post_pres (b : Buffer α)
    (hb : b.empty = true → b.out.all List.isEmpty = true) :
    (if b.empty then b else if b.out.all List.isEmpty then { b with empty := true } else b).empty = true →
    (if b.empty then b else if b.out.all List.isEmpty then { b with empty := true } else b).out.all List.isEmpty = true := by
  by_cases h : b.empty = true
  · intro _
    rw [if_pos h]
    exact hb h
  · by_cases h2 : b.out.all List.isEmpty = true
    · intro _
      rw [if_neg h, if_pos h2]
      exact h2
    · intro hcon
      rw [if_neg h, if_neg h2] at hcon
      exact absurd hcon h

theorem read_snd_eq (b : Buffer α) (timestamp md : Nat) :
    (read_first b).2 = (if b.empty then b else if b.out.all List.isEmpty then { b with empty := true } else b) ∧
    (read_last b md).2 = (if b.empty then b else if b.out.all List.isEmpty then { b with empty := true } else b) ∧
    (read b timestamp md).2 = (if b.empty then b else if b.out.all List.isEmpty then { b with empty := true } else b) := by
  unfold read_first read_last read
  by_cases h : b.empty = true <;> by_cases h2 : b.out.all List.isEmpty = true <;> simp [h, h2]

theorem run_empty_all_isEmpty (ops : List (Op α)) :
    ∀ b : Buffer α, (b.empty = true → b.out.all List.isEmpty = true) →
      (run b ops).empty = true → (run b ops).out.all List.isEmpty = true := by
  induction ops with
  | nil => intro b hb; exact hb
  | cons op ops ih =>
    intro b hb
    have hstep : (applyOp b op).empty = true → (applyOp b op).out.all List.isEmpty = true := by
      cases op with
      | put idx v timestamp now => intro h; simp [applyOp, putTask] at h
      | readFirst =>
        have h : applyOp b Op.readFirst = (read_first b).2 := rfl
        rw [h, (read_snd_eq b 0 0).1]
        exact post_pres b hb
      | readLast md =>
        have h : applyOp b (Op.readLast md) = (read_last b md).2 := rfl
        rw [h, (read_snd_eq b 0 md).2.1]
        exact post_pres b hb
      | readAt timestamp md =>
        have h : applyOp b (Op.readAt timestamp md) = (read b timestamp md).2 := rfl
        rw [h, (read_snd_eq b timestamp md).2.2]
        exact post_pres b hb
    have h2 := ih (applyOp b op) hstep
    simpa [run, List.foldl_cons] using h2

end RoboComp

namespace RoboComp

variable {α β γ δ : Type}

/-- C1: the nearest-match rule the spec states for `read(t, max_diff)` is what the
header comment of the class promises, but the code does not implement it:
`std::min(diffs.begin(), diffs.end())` compares the two iterators instead of
the difference values, so `read` always returns the front (oldest) entry of
each channel.  On a channel holding `(1, ts 10)` and `(2, ts 30)`, the query
`read(30)` returns `1` (distance 20) although the nearest sample is `2`
(distance 0, as `specNearest` computes). -/
theorem c1_read_returns_front_not_nearest :
    (read bC1 30 (U64 - 1)).1 = [some 1] ∧
    specNearest 30 (bC1.out.getD 0 []) = some { val := 2, ts := 30 } ∧
    absDiff 30 30 < absDiff 10 30 := by decide

/-- C2 (counterexample): the claim states that `read_last(max_diff)` fills a
slot of a non-empty channel iff `(M - channel.last_write) < max_diff`.  In
state `bC2` the channel is non-empty and `M - last_write[0] = 0 < 5`, yet
`read_last(5)` leaves the slot empty (the code subtracts the logical
timestamp `100` of the newest sample, not `last_write[0] = 10`).  In state `bC2b` with
the default `max_diff = 2^64 - 1` the claim says the bound is always
satisfied, yet the slot is again empty (unsigned wrap: `10 - 11` is
`2^64 - 1`). -/
theorem c2_read_last_counterexample :
    (bC2.out.getD 0 [] ≠ [] ∧
      usub (maxElement bC2.last_write) (bC2.last_write.getD 0 0) < 5 ∧
      (read_last bC2 5).1 = [none]) ∧
    (bC2b.out.getD 0 [] ≠ [] ∧
      usub (maxElement bC2b.last_write) (bC2b.last_write.getD 0 0) < U64 - 1 ∧
      (read_last bC2b (U64 - 1)).1 = [none]) := by
  refine ⟨⟨by decide, by decide, by decide⟩, ⟨by decide, by decide, ?_⟩⟩
  decide

/-- C2 (amended): `read_last(max_diff)` computes `M` as the maximum
`last_write` value and fills the slot of a channel `q` of the buffer whose
newest retained sample is `e` with `e.val` iff
`(M - e.ts) mod 2^64 < max_diff` — the subtrahend is the logical timestamp
of the newest sample, not the `last_write` of the channel; with the default
`max_diff = 2^64 - 1` the bound holds iff `(M - e.ts) mod 2^64` is not
`2^64 - 1`. -/
theorem c2_read_last_amended (b : Buffer α) (hb : b.empty = false)
    (q : List (Entry α)) (_hq : q ∈ b.out) (e : Entry α)
    (hlast : q.getLast? = some e) (md : Nat) :
    (read_last b md).1 = b.out.map (read_last_slot (maxElement b.last_write) md) ∧
    (read_last_slot (maxElement b.last_write) md q = some e.val ↔
      usub (maxElement b.last_write) e.ts < md) ∧
    (read_last_slot (maxElement b.last_write) (U64 - 1) q = some e.val ↔
      usub (maxElement b.last_write) e.ts ≠ U64 - 1) := by
  have hlt := usub_lt (maxElement b.last_write) e.ts
  refine ⟨by simp [read_last, hb], ?_, ?_⟩
  · unfold read_last_slot
    rw [hlast]
    by_cases h : usub (maxElement b.last_write) e.ts < md <;> simp [h]
  · unfold read_last_slot
    rw [hlast]
    by_cases h : usub (maxElement b.last_write) e.ts < U64 - 1 <;> simp [h] <;> omega

theorem c2_read_last_amended_witness :
    ((read_last bC2w 5).1 = bC2w.out.map (read_last_slot (maxElement bC2w.last_write) 5) ∧
     (read_last_slot (maxElement bC2w.last_write) 5 [{ val := 7, ts := 10 }] =
        some (7 : Nat) ↔ usub (maxElement bC2w.last_write) 10 < 5) ∧
     (read_last_slot (maxElement bC2w.last_write) (U64 - 1) [{ val := 7, ts := 10 }] =
        some (7 : Nat) ↔ usub (maxElement bC2w.last_write) 10 ≠ U64 - 1)) :=
  c2_read_last_amended bC2w rfl ([{ val := 7, ts := 10 }] : List (Entry Nat)) (by decide)
    ({ val := 7, ts := 10 } : Entry Nat) rfl 5

/-- C3: a channel of capacity `K ≥ 1` never holds more than `K` samples; one
`put` step at capacity evicts exactly the single oldest entry before
appending (below capacity it just appends): the step equals
`(q ++ [e]).drop (q.length + 1 - K)`, which preserves insertion order; and
draining `N ≥ K` sequential puts with distinct timestamps from the empty
channel leaves exactly the `K` most recently submitted samples,
oldest-first. -/
theorem c3_fifo_eviction (K : Nat) (hK : 1 ≤ K) (q : List (Entry α))
    (e : Entry α) (hq : q.length ≤ K) (ps : List (Entry α))
    (_hN : K ≤ ps.length) (_hdist : (ps.map Entry.ts).Nodup) :
    (pushCh K q e).length ≤ K ∧
    pushCh K q e = (q ++ [e]).drop (q.length + 1 - K) ∧
    ps.foldl (pushCh K) [] = ps.drop (ps.length - K) := by
  refine ⟨pushCh_length_le K hK q e hq, pushCh_eq_drop K hK q e hq, ?_⟩
  have h := foldl_pushCh K hK ps [] (by simp)
  simpa using h

theorem c3_fifo_eviction_witness :
    (pushCh 1 [({ val := 0, ts := 5 } : Entry Nat)] ({ val := 1, ts := 6 } : Entry Nat)).length ≤ 1 ∧
    pushCh 1 [({ val := 0, ts := 5 } : Entry Nat)] ({ val := 1, ts := 6 } : Entry Nat) =
      ([({ val := 0, ts := 5 } : Entry Nat)] ++ [({ val := 1, ts := 6 } : Entry Nat)]).drop
        ([({ val := 0, ts := 5 } : Entry Nat)].length + 1 - 1) ∧
    [({ val := 5, ts := 0 } : Entry Nat), ({ val := 6, ts := 1 } : Entry Nat)].foldl (pushCh 1) [] =
      [({ val := 5, ts := 0 } : Entry Nat), ({ val := 6, ts := 1 } : Entry Nat)].drop
        ([({ val := 5, ts := 0 } : Entry Nat), ({ val := 6, ts := 1 } : Entry Nat)].length - 1) :=
  c3_fifo_eviction 1 (by decide) [({ val := 0, ts := 5 } : Entry Nat)] ({ val := 1, ts := 6 } : Entry Nat)
    (by decide) [({ val := 5, ts := 0 } : Entry Nat), ({ val := 6, ts := 1 } : Entry Nat)] (by decide) (by decide)

/-- C4: the conversion ladder of `ItoO` can never fail: the `static_assert`
guards compare `decltype(t)` (a `std::function` reference) with
`decltype(empty_fn)` (a lambda closure type), which are never the same
type, so the guard never fires.  In particular a `put` whose input type is
neither convertible nor element-wise convertible to the output type, with
no transform supplied (`t = empty_fn`), silently stores the
default-constructed output value instead of failing with
`ConfigurationError`. -/
theorem c4_conversion_never_fails (sig : ConvSig) (conv elemwise : α → β)
    (t : α → β → β) (x : α) (dflt : β) :
    (ItoO sig conv elemwise t x dflt).isOk = true ∧
    ItoO { same_or_convertible := false, iterable_I := false, iterable_O := false,
           elem_convertible := false } conv elemwise empty_fn x dflt = .ok dflt := by
  refine ⟨?_, rfl⟩
  unfold ItoO t_has_empty_fn_type
  by_cases h1 : sig.same_or_convertible = true <;>
    by_cases h2 : (sig.iterable_I && sig.iterable_O) = true <;>
      by_cases h3 : sig.elem_convertible = true <;>
        simp [h1, h2, h3, Except.isOk, Except.toBool]

/-- C5 (counterexample): the claim states that constructing a buffer with a
zero capacity fails with `PreconditionError`, yet the constructors of
`BufferSync` contain no capacity check at all: constructing a one-channel
`BufferSync` with `queue_size = 0` succeeds (with all channels empty). -/
theorem c5_zero_capacity_counterexample :
    constructSync (α := Nat) [0] 0 = .ok (init [0] 0) ∧
    (init (α := Nat) [0] 0).out.all List.isEmpty = true :=
  ⟨rfl, rfl⟩

/-- C5 (amended): only `DoubleBuffer(size, threadPoolSize)` validates its
capacities — it fails (with `std::invalid_argument`) iff `size = 0` or
`threadPoolSize = 0`; the `BufferSync` constructor accepts every size,
including zero, without any error, and in either class a successful
construction yields a buffer whose channels are all empty. -/
theorem c5_construction_amended (lw : List Nat) (size tp : Nat) :
    ((constructDouble size tp).isOk = true ↔ size ≠ 0 ∧ tp ≠ 0) ∧
    constructSync (α := Nat) lw size = .ok (init lw size) ∧
    (init (α := Nat) lw size).out.all List.isEmpty = true := by
  refine ⟨?_, rfl, ?_⟩
  · unfold constructDouble
    by_cases h1 : size = 0 <;> by_cases h2 : tp = 0 <;> simp [h1, h2, Except.isOk, Except.toBool]
  · simp [init]

/-- C6: draining a list of `put` tasks through the single-worker FIFO
executor (`drain`, modelled from the spec because the `ThreadPool` source is
not part of src/) produces exactly the state obtained by applying the same
puts sequentially in submission order. -/
theorem c6_ordering_determinism (rs : List (PutReq α)) (b : Buffer α) :
    drain (rs.map putReqTask) b =
      rs.foldl (fun s r => putTask s r.idx r.v r.timestamp r.now) b := by
  unfold drain
  rw [List.foldl_map]
  rfl

/-- C7 (amended): the `empty` flag of a freshly constructed `BufferSync` is
`false` (C++20 value-initialisation of the `std::atomic_bool` member), not
`true` as the claim states; every insertion sets it `false`, and it is set
`true` only when a query observes all channels simultaneously empty, so in
every state reachable by drained operations the flag being `true` implies
that every channel is empty. -/
theorem c7_bufferstate_invariant (lw : List Nat) (qs : Nat)
    (ops : List (Op Nat)) (b : Buffer Nat) (idx v timestamp now : Nat)
    (h : (run (init lw qs) ops).empty = true) :
    (init (α := Nat) lw qs).empty = false ∧
    (putTask b idx v timestamp now).empty = false ∧
    (run (init lw qs) ops).out.all List.isEmpty = true := by
  refine ⟨rfl, rfl, ?_⟩
  refine run_empty_all_isEmpty ops (init lw qs) ?_ h
  intro _
  simp [init]

/-- C7 (counterexample): on a freshly constructed one-channel `BufferSync`
every channel is empty and yet the `empty` flag is `false`, contradicting
the claim that the flag is true while every channel is empty and in
particular on a freshly constructed buffer. -/
theorem c7_bufferstate_counterexample :
    (init (α := Nat) [0] 10).empty = false ∧
    (init (α := Nat) [0] 10).out.all List.isEmpty = true := by decide

theorem c7_bufferstate_invariant_witness :
    (init (α := Nat) [0] 10).empty = false ∧
    (putTask (init (α := Nat) [0] 10) 0 0 0 0).empty = false ∧
    (run (init (α := Nat) [0] 10) [Op.readFirst]).out.all List.isEmpty = true :=
  c7_bufferstate_invariant [0] 10 [Op.readFirst] (init [0] 10) 0 0 0 0 (by decide)

/-- C8: on a freshly constructed buffer (no writes applied), `read_first`,
`read_last` and `read` each return an all-empty snapshot — one `none` slot
per channel — for every `last_write` contents, queue size, query timestamp
and `max_diff`. -/
theorem c8_empty_buffer_reads (lw : List Nat) (qs timestamp md : Nat) :
    (read_first (init lw qs : Buffer α)).1 = List.replicate lw.length none ∧
    (read_last (init lw qs : Buffer α) md).1 = List.replicate lw.length none ∧
    (read (init lw qs : Buffer α) timestamp md).1 = List.replicate lw.length none := by
  refine ⟨?_, ?_, ?_⟩ <;>
    simp [read_first, read_last, read, init, read_last_slot, read_slot]

/-- C9: none of the three query operations modifies any channel: the
retained samples (values and timestamps alike) and the `last_write` array of
the post-state equal those of the pre-state, for every buffer state and
every choice of query arguments. -/
theorem c9_reads_preserve_channels (b : Buffer α) (timestamp md : Nat) :
    ((read_first b).2.out = b.out ∧ (read_first b).2.last_write = b.last_write) ∧
    ((read_last b md).2.out = b.out ∧ (read_last b md).2.last_write = b.last_write) ∧
    ((read b timestamp md).2.out = b.out ∧ (read b timestamp md).2.last_write = b.last_write) := by
  unfold read_first read_last read
  by_cases h : b.empty = true <;> by_cases h2 : b.out.all List.isEmpty = true <;> simp [h, h2]

/-- C10: with the default (maximum) `max_diff = 2^64 - 1` and the fast-path
flag `false`, `read` fills the slot of every non-empty channel with the
value of a retained sample of that channel (namely its front entry): an
empty slot for a non-empty channel can only arise from a finite
`max_diff`. -/
theorem c10_unbounded_read_hits (b : Buffer α) (hb : b.empty = false)
    (j : Nat) (hj : j < b.out.length) (e : Entry α)
    (hhead : (b.out.getD j []).head? = some e) (timestamp : Nat) :
    e ∈ b.out.getD j [] ∧
    (read b timestamp (U64 - 1)).1.getD j none = some e.val := by
  constructor
  · exact List.mem_of_mem_head? (Option.mem_def.mpr hhead)
  · have h1 : (read b timestamp (U64 - 1)).1 = b.out.map (read_slot timestamp (U64 - 1)) := by
      simp [read, hb]
    rw [h1, getD_map_of_lt (read_slot timestamp (U64 - 1)) [] none b.out j hj]
    have hlt := usub_lt timestamp e.ts
    have hle : usub timestamp e.ts ≤ U64 - 1 := by
      have hU : 0 < U64 := by unfold U64; norm_num
      omega
    simp only [read_slot]
    rw [List.get?_zero, hhead]
    simp [hle]

theorem c10_unbounded_read_hits_witness :
    ({ val := 1, ts := 10 } : Entry Nat) ∈ bC1.out.getD 0 [] ∧
    (read bC1 99 (U64 - 1)).1.getD 0 none = some 1 :=
  c10_unbounded_read_hits bC1 rfl 0 (by decide) { val := 1, ts := 10 } rfl 99

end RoboComp
